import Mathlib

/-!
Verification of the rule-based forwarding engine of the `tg_forword_bot`
repository.  The two implementations are embedded shallowly:

* namespace `App`  — the per-rule engine `forward_message` of `app.py`
  (SQLAlchemy-backed rules, per-rule filters, text processing and the
  copy-vs-forward dispatch decision);
* namespace `Src2` — the single-rule engine `handle_incoming` of
  `src/app.py` (in-memory state, header/footer composition and the
  dedup cache).

Python strings that may be `None` are modelled as `String`, with `""`
standing for both `None` and the empty string; the two are
indistinguishable under Python truthiness everywhere the engine reads
them.  Python string primitives (`in`, `lower`, `strip`, `split`,
`replace`, `startswith`, `lstrip`, `str(int)`) are given executable
structurally-recursive models below.
-/

namespace TgForward

/-- `isPrefixChars p s` : the char list `p` is a prefix of `s`. -/
def isPrefixChars : List Char → List Char → Bool
  | [], _ => true
  | _ :: _, [] => false
  | a :: as, b :: bs => a == b && isPrefixChars as bs

/-- `containsChars n s` : the char list `n` occurs contiguously in `s`. -/
def containsChars (needle : List Char) : List Char → Bool
  | [] => isPrefixChars needle []
  | b :: bs => isPrefixChars needle (b :: bs) || containsChars needle bs

/-- Python `needle in hay` on strings (substring containment;
`"" in s` is `True`). -/
def pyIn (needle hay : String) : Bool :=
  containsChars needle.toList hay.toList

/-- Python `s.lower()` (ASCII case folding, as used by the bot). -/
def pyLower (s : String) : String :=
  String.mk (s.toList.map Char.toLower)

/-- Python `s.strip()` : remove leading and trailing whitespace. -/
def pyStrip (s : String) : String :=
  String.mk (((s.toList.dropWhile Char.isWhitespace).reverse.dropWhile
    Char.isWhitespace).reverse)

def splitCommaAux : List Char → List Char → List String
  | [], acc => [String.mk acc.reverse]
  | c :: rest, acc =>
    if c == ',' then String.mk acc.reverse :: splitCommaAux rest []
    else splitCommaAux rest (c :: acc)

/-- Python `s.split(',')` (note `"".split(',') == [""]`). -/
def pySplitComma (s : String) : List String :=
  splitCommaAux s.toList []

/-- Python `s.startswith(p)`. -/
def pyStartsWith (s p : String) : Bool :=
  isPrefixChars p.toList s.toList

/-- Python `s.lstrip('@')` : drop every leading `'@'`. -/
def pyLstripAt (s : String) : String :=
  String.mk (s.toList.dropWhile (· == '@'))

/-- Left-to-right non-overlapping replacement of a non-empty pattern;
the fuel argument bounds the recursion by the subject length. -/
def replaceFuel (old new : List Char) : Nat → List Char → List Char
  | 0, s => s
  | _ + 1, [] => []
  | n + 1, c :: rest =>
    if isPrefixChars old (c :: rest) then
      new ++ replaceFuel old new n (List.drop (old.length - 1) rest)
    else
      c :: replaceFuel old new n rest

/-- Python `s.replace("", new)` inserts `new` around every character. -/
def interAll (new : List Char) : List Char → List Char
  | [] => new
  | c :: rest => new ++ c :: interAll new rest

/-- Python `s.replace(old, new)`. -/
def pyReplace (s old new : String) : String :=
  if old = "" then String.mk (interAll new.toList s.toList)
  else String.mk (replaceFuel old.toList new.toList s.toList.length s.toList)

def natDigits : Nat → Nat → List Char
  | 0, _ => []
  | _ + 1, 0 => []
  | fuel + 1, n => natDigits fuel (n / 10) ++ [Char.ofNat (48 + n % 10)]

/-- Python `str(n)` for a natural number. -/
def pyStrNat (n : Nat) : String :=
  if n = 0 then "0" else String.mk (natDigits (n + 1) n)

/-- Python `str(i)` for an integer (decimal, `-` sign for negatives). -/
def pyStr : Int → String
  | Int.ofNat n => pyStrNat n
  | Int.negSucc n => "-" ++ pyStrNat (n + 1)

/-- Python `a or b` on strings (`""` is falsy). -/
def pyOr (a b : String) : String :=
  if a = "" then b else a

/-! ## `App` — the engine of `app.py` (`forward_message`) -/

namespace App

/-- A `ForwardRule` row plus its `id`, mirroring the SQLAlchemy model of
`app.py` (fields keep their column names).  `PickleType` columns are
modelled as ordered lists; the replacements dict keeps insertion order. -/
structure Rule where
  id : Nat
  rule_name : String
  SOURCE_CHAT_ID : String
  DESTINATION_CHAT_ID : String
  IS_ACTIVE : Bool
  FORWARDING_MODE : String
  FORWARD_DELAY_SECONDS : Nat
  PREFIX_TEXT : String
  SUFFIX_TEXT : String
  BLOCK_LINKS : Bool
  BLOCK_USERNAMES : Bool
  BLOCK_MEDIA : Bool
  BLOCK_FORWARDS : Bool
  REMOVE_WEB_PREVIEW : Bool
  REMOVE_BUTTONS : Bool
  REMOVE_CAPTION : Bool
  SILENT_FORWARDING : Bool
  BLOCK_SERVICE_MESSAGES : Bool
  BLOCK_REPLIES : Bool
  TEXT_REPLACEMENTS : List (String × String)
  WORD_BLACKLIST : List String
  WORD_WHITELIST : List String
deriving DecidableEq

/-- A rule as freshly created by `create_new_rule`: every column takes
its SQLAlchemy `default` (`IS_ACTIVE=True`, `FORWARDING_MODE='COPY'`,
`REMOVE_BUTTONS=True`, `BLOCK_SERVICE_MESSAGES=True`, the rest
false/empty). -/
def defaultRule (i : Nat) (name source dest : String) : Rule where
  id := i
  rule_name := name
  SOURCE_CHAT_ID := source
  DESTINATION_CHAT_ID := dest
  IS_ACTIVE := true
  FORWARDING_MODE := "COPY"
  FORWARD_DELAY_SECONDS := 0
  PREFIX_TEXT := ""
  SUFFIX_TEXT := ""
  BLOCK_LINKS := false
  BLOCK_USERNAMES := false
  BLOCK_MEDIA := false
  BLOCK_FORWARDS := false
  REMOVE_WEB_PREVIEW := false
  REMOVE_BUTTONS := true
  REMOVE_CAPTION := false
  SILENT_FORWARDING := false
  BLOCK_SERVICE_MESSAGES := true
  BLOCK_REPLIES := false
  TEXT_REPLACEMENTS := []
  WORD_BLACKLIST := []
  WORD_WHITELIST := []

/-- The fields of an inbound Telegram message that `forward_message`
reads.  `""` models an absent (`None` or empty) text, caption or
username; media kinds are presence flags. -/
structure Message where
  chatId : Int
  chatUsername : String
  messageId : Nat
  text : String
  caption : String
  isService : Bool
  isForwarded : Bool
  isReply : Bool
  hasPhoto : Bool
  hasVideo : Bool
  hasDocument : Bool
  hasAudio : Bool
  hasVoice : Bool
  hasSticker : Bool
  hasAnimation : Bool
  hasReplyMarkup : Bool
deriving DecidableEq

/-- `message.text or message.caption or ""`. -/
def textOf (m : Message) : String := pyOr m.text m.caption

/-- One comma-separated source entry against the inbound identity:
exact id equality, or `@handle` case-insensitive match (only when the
chat has a username). -/
def entryMatch (sourceId username : String) (s : String) : Bool :=
  s == sourceId ||
  (pyStartsWith s "@" && username != "" &&
    pyLower username == pyLower (pyLstripAt s))

/-- The source matcher of `forward_message`: split
`rule.SOURCE_CHAT_ID` on commas, strip each entry, match any. -/
def sourceMatches (r : Rule) (m : Message) : Bool :=
  ((pySplitComma r.SOURCE_CHAT_ID).map pyStrip).any
    (entryMatch (pyStr m.chatId) m.chatUsername)

/-- Membership test in `matching_rules`: active, destination set,
source matches. -/
def ruleSelected (r : Rule) (m : Message) : Bool :=
  r.IS_ACTIVE && r.DESTINATION_CHAT_ID != "" && sourceMatches r m

def isHandleChar (c : Char) : Bool :=
  decide (97 ≤ c.toNat ∧ c.toNat ≤ 122) ||
  decide (65 ≤ c.toNat ∧ c.toNat ≤ 90) ||
  decide (48 ≤ c.toNat ∧ c.toNat ≤ 57) ||
  c == '_'

/-- `re.search(r'@[a-zA-Z0-9_]+', s)` as a Boolean scan. -/
def mentionScan : List Char → Bool
  | [] => false
  | [_] => false
  | a :: b :: rest => (a == '@' && isHandleChar b) || mentionScan (b :: rest)

/-- Every media presence flag the engine tests
(photo/video/document/audio/voice/sticker/animation). -/
def hasAnyMedia (m : Message) : Bool :=
  m.hasPhoto || m.hasVideo || m.hasDocument || m.hasAudio ||
  m.hasVoice || m.hasSticker || m.hasAnimation

/-- Attachment with no text and no caption. -/
def isPureMedia (m : Message) : Bool :=
  hasAnyMedia m && m.text == "" && m.caption == ""

/-- The media set of the `REMOVE_CAPTION` test (no sticker). -/
def hasCaptionMedia (m : Message) : Bool :=
  m.hasPhoto || m.hasVideo || m.hasDocument || m.hasAnimation ||
  m.hasAudio || m.hasVoice

/-- The rule-specific filter chain (service / forwarded / reply /
pure-media / links / mentions / blacklist / whitelist); `true` means
the message survives every `continue`. -/
def passesFilters (r : Rule) (m : Message) : Bool :=
  let textLower := pyLower (textOf m)
  !(r.BLOCK_SERVICE_MESSAGES && m.isService) &&
  !(r.BLOCK_FORWARDS && m.isForwarded) &&
  !(r.BLOCK_REPLIES && m.isReply) &&
  !(r.BLOCK_MEDIA && isPureMedia m) &&
  !(r.BLOCK_LINKS && (pyIn "http" textLower || pyIn "t.me" textLower)) &&
  !(r.BLOCK_USERNAMES && mentionScan textLower.toList) &&
  !(!r.WORD_BLACKLIST.isEmpty &&
      r.WORD_BLACKLIST.any (fun w => pyIn w textLower)) &&
  !(!r.WORD_WHITELIST.isEmpty &&
      !r.WORD_WHITELIST.any (fun w => pyIn w textLower))

/-- The replacement loop: each `find -> replace` pair in stored order,
over the progressively modified text; the Boolean is `text_modified`. -/
def applyReplacements (reps : List (String × String)) (t : String) :
    String × Bool :=
  reps.foldl
    (fun acc fr =>
      if pyIn fr.1 acc.1 then (pyReplace acc.1 fr.1 fr.2, true) else acc)
    (t, false)

/-- Text processing of `forward_message`: replacements (only when the
dict and the text are non-empty), then unconditional
prefix-and-suffix concatenation, which always sets `text_modified`. -/
def textProcess (r : Rule) (t : String) : String × Bool :=
  let p :=
    if !r.TEXT_REPLACEMENTS.isEmpty && t != "" then
      applyReplacements r.TEXT_REPLACEMENTS t
    else (t, false)
  if r.PREFIX_TEXT != "" || r.SUFFIX_TEXT != "" then
    (r.PREFIX_TEXT ++ p.1 ++ r.SUFFIX_TEXT, true)
  else p

/-- `force_copy`: COPY mode, or any modification, or a presentation
flag that requires reconstruction. -/
def forceCopyOf (r : Rule) (modified : Bool) : Bool :=
  r.FORWARDING_MODE == "COPY" || modified || r.REMOVE_BUTTONS ||
  r.REMOVE_CAPTION || r.REMOVE_WEB_PREVIEW

/-- The transport calls `forward_message` can issue. -/
inductive Call where
  | sendText (dest text : String) (noPreview silent : Bool)
  | copyMsg (dest : String) (fromChat : Int) (messageId : Nat)
      (caption : Option String) (noPreview silent markup : Bool)
  | forward (dest : String) (fromChat : Int) (messageId : Nat)
      (silent : Bool)
deriving DecidableEq

/-- Whether a call is the verbatim `bot.forward_message` transport call. -/
def Call.isForward : Call → Bool
  | Call.forward _ _ _ _ => true
  | _ => false

/-- Python truthiness of `caption_to_send and caption_to_send.strip()`. -/
def captionTruthy : Option String → Bool
  | none => false
  | some s => s != "" && pyStrip s != ""

/-- The dispatch decision for one rule on one filter-passing message:
`none` when the engine falls through without any transport call, and
the single call it performs otherwise (lines 995-1066 of `app.py`). -/
def plannedCall (r : Rule) (m : Message) : Option Call :=
  let p := textProcess r (textOf m)
  let forceCopy := forceCopyOf r p.2
  let captionToSend : Option String :=
    if r.REMOVE_CAPTION && hasCaptionMedia m then none else some p.1
  if !hasAnyMedia m && !captionTruthy captionToSend &&
      m.text == "" && m.caption == "" then
    none
  else if forceCopy then
    if m.text != "" && m.caption == "" && !m.hasPhoto && !m.hasVideo then
      if captionTruthy captionToSend then
        some (Call.sendText r.DESTINATION_CHAT_ID p.1
          r.REMOVE_WEB_PREVIEW r.SILENT_FORWARDING)
      else none
    else if hasAnyMedia m then
      some (Call.copyMsg r.DESTINATION_CHAT_ID m.chatId m.messageId
        (if captionTruthy captionToSend then captionToSend else none)
        r.REMOVE_WEB_PREVIEW r.SILENT_FORWARDING
        (if !r.REMOVE_BUTTONS then m.hasReplyMarkup else false))
    else none
  else
    some (Call.forward r.DESTINATION_CHAT_ID m.chatId m.messageId
      r.SILENT_FORWARDING)

def FORCE_ADMIN_ID : Nat := 1695450646

def is_admin (userId : Nat) : Bool := userId == FORCE_ADMIN_ID

/-- Observable outcomes per rule: a transport call issued (with its
success), and best-effort admin error notification. -/
inductive Effect where
  | callIssued (ruleId : Nat) (c : Call) (ok : Bool)
  | adminNotified (ruleId : Nat)
deriving DecidableEq

/-- The loop body for one rule already in `matching_rules`: run the
filter chain, plan the call, issue it inside `try`, and on an
exception notify the admin (`raises` is the transport failure
oracle). -/
def ruleFire (r : Rule) (m : Message) (raises : Call → Bool) :
    List Effect :=
  if passesFilters r m then
    match plannedCall r m with
    | none => []
    | some c =>
      if raises c then
        Effect.callIssued r.id c false ::
          (if is_admin FORCE_ADMIN_ID then [Effect.adminNotified r.id] else [])
      else [Effect.callIssued r.id c true]
  else []

/-- All observable effects `forward_message` produces for one rule on
one message (selection, filters, dispatch, error handling). -/
def perRuleEffects (r : Rule) (m : Message) (raises : Call → Bool) :
    List Effect :=
  if ruleSelected r m then ruleFire r m raises else []

/-- The whole of `forward_message` on a rule list: build
`matching_rules`, then run each body in order. -/
def processMessage (rules : List Rule) (m : Message)
    (raises : Call → Bool) : List Effect :=
  ((rules.filter (fun r => ruleSelected r m)).map
    (fun r => ruleFire r m raises)).flatten

end App

/-! ## `Src2` — the engine of `src/app.py` (`handle_incoming`) -/

namespace Src2

/-- `"\n".join parts` of the header/footer composition. -/
def joinNL : List String → String
  | [] => ""
  | [s] => s
  | s :: rest => s ++ "\n" ++ joinNL rest

/-- The header/footer composition of `handle_incoming`:
`"\n".join([part for part in (header, final_text, footer) if part]) or " "`. -/
def composeHF (header footer text : String) : String :=
  let joined := joinNL ([header, text, footer].filter (fun p => p != ""))
  if joined = "" then " " else joined

/-- `apply_replacements`: every stored pair, unconditionally, in
order. -/
def applyReplacementsS (reps : List (String × String)) (t : String) :
    String :=
  reps.foldl (fun acc fr => pyReplace acc fr.1 fr.2) t

/-- `is_blocked_message` as a Boolean: some non-empty blocked value is
a substring of the text. -/
def isBlockedMessage (blocked : List String) (text : String) : Bool :=
  blocked.any (fun v => v != "" && pyIn v text)

/-- The dedup cache: `unique_key -> timestamp` entries (a Python dict,
keys unique). -/
abbrev Cache := List (String × Nat)

/-- The cleanup pass of `forwarded_cache_exists`: delete every entry
older than `ttl` seconds. -/
def cacheCleanup (cache : Cache) (now ttl : Nat) : Cache :=
  cache.filter (fun p => decide (now - p.2 ≤ ttl))

/-- `key in state["forwarded_cache"]` after cleanup. -/
def cacheHas (cache : Cache) (key : String) : Bool :=
  cache.any (fun p => p.1 == key)

/-- `add_forwarded_cache`: dict assignment `cache[key] = now`. -/
def cacheAdd (cache : Cache) (key : String) (now : Nat) : Cache :=
  (key, now) :: cache.filter (fun p => p.1 != key)

/-- The slice of the global `state` dict that `handle_incoming`
reads or writes. -/
structure SState where
  enabled : Bool
  source : String
  target : String
  replacements : List (String × String)
  blocked : List String
  header : String
  footer : String
  dupCheck : Bool
  forwardedCache : Cache
deriving DecidableEq

/-- The message fields `handle_incoming` reads; `forwardFrom` models
`msg.forward_from_chat` (`none` when absent). -/
structure SMsg where
  chatId : Int
  chatUsername : String
  messageId : Nat
  text : String
  caption : String
  hasPhoto : Bool
  hasVideo : Bool
  hasDocument : Bool
  hasAudio : Bool
  forwardFrom : Option (Int × String)
deriving DecidableEq

/-- The source test: the message chat, or the forwarded-from chat,
equals the configured source by id string or `@username`. -/
def srcMatch (st : SState) (m : SMsg) : Bool :=
  (pyStr m.chatId == st.source || "@" ++ m.chatUsername == st.source) ||
  (match m.forwardFrom with
   | none => false
   | some fc => pyStr fc.1 == st.source || "@" ++ fc.2 == st.source)

/-- The transport calls `handle_incoming` can issue. -/
inductive SCall where
  | copyMsg (target caption : String)
  | sendText (target text : String)
deriving DecidableEq

/-- The observable outcome of one `handle_incoming` invocation. -/
inductive Outcome where
  | skippedDisabled
  | skippedUnconfigured
  | skippedNoMatch
  | skippedDup
  | skippedBlocked
  | sent (c : SCall)
  | failed (c : SCall)
deriving DecidableEq

/-- `handle_incoming` at time `now` (seconds): returns the new global
state and the outcome; `raises` says whether the transport call
throws.  The cache is written in two places only: the TTL cleanup
inside the duplicate check, and `add_forwarded_cache` after a
successful send. -/
def handle_incoming (st : SState) (m : SMsg) (now : Nat)
    (raises : Bool) : SState × Outcome :=
  if !st.enabled then (st, Outcome.skippedDisabled)
  else if st.source == "" || st.target == "" then
    (st, Outcome.skippedUnconfigured)
  else if !srcMatch st m then (st, Outcome.skippedNoMatch)
  else
    let text := pyOr m.text m.caption
    let key := pyStr m.chatId ++ ":" ++ pyStrNat m.messageId
    let cache1 := if st.dupCheck then cacheCleanup st.forwardedCache now 3600
                  else st.forwardedCache
    let st1 := { st with forwardedCache := cache1 }
    if st.dupCheck && cacheHas cache1 key then (st1, Outcome.skippedDup)
    else if isBlockedMessage st.blocked text then
      (st1, Outcome.skippedBlocked)
    else
      let composed := composeHF st1.header st1.footer
        (applyReplacementsS st1.replacements text)
      let call := if m.hasPhoto || m.hasVideo || m.hasDocument || m.hasAudio
                  then SCall.copyMsg st1.target composed
                  else SCall.sendText st1.target composed
      if raises then (st1, Outcome.failed call)
      else ({ st1 with forwardedCache := cacheAdd st1.forwardedCache key now },
            Outcome.sent call)

end Src2

/-! ## Shared helper lemmas -/

theorem append_ne_empty_left (a b : String) (ha : a ≠ "") : a ++ b ≠ "" := by
  intro h
  apply ha
  have hd : a.data ++ b.data = [] := by
    have := congrArg String.data h
    simpa [String.data_append] using this
  apply String.ext
  simpa using List.append_eq_nil.mp hd |>.1

/-- `processMessage` is the concatenation of the per-rule effect lists:
peeling one rule off the list. -/
theorem processMessage_cons (r : App.Rule) (rest : List App.Rule)
    (m : App.Message) (raises : App.Call → Bool) :
    App.processMessage (r :: rest) m raises =
      App.perRuleEffects r m raises ++ App.processMessage rest m raises := by
  by_cases h : App.ruleSelected r m = true
  · simp [App.processMessage, App.perRuleEffects, List.filter_cons, h]
  · simp at h
    simp [App.processMessage, App.perRuleEffects, List.filter_cons, h]

/-! ## Concrete configurations used by witnesses and counterexamples -/

def c1Rule : App.Rule :=
  { App.defaultRule 1 "c1" "-100111" "-100222" with
      WORD_BLACKLIST := ["spam"], WORD_WHITELIST := ["sale"] }

def c1Msg : App.Message where
  chatId := -100111
  chatUsername := ""
  messageId := 7
  text := "buy spam now sale"
  caption := ""
  isService := false
  isForwarded := false
  isReply := false
  hasPhoto := false
  hasVideo := false
  hasDocument := false
  hasAudio := false
  hasVoice := false
  hasSticker := false
  hasAnimation := false
  hasReplyMarkup := false

def c2Rule : App.Rule :=
  { App.defaultRule 2 "c2" "-100111" "-100222" with IS_ACTIVE := false }

def c5Rule : App.Rule := App.defaultRule 5 "c5" "4123" "-100222"

def c5Msg : App.Message := { c1Msg with chatId := 123, text := "hello" }

def c6Rule : App.Rule := App.defaultRule 6 "c6" "-100111" ""

def c6Msg : App.Message := { c1Msg with text := "hello" }

/-! ## Claim theorems -/

/-- C1: for every inbound message and every rule, if the lowercased
body (text or caption) contains any blacklist term of the rule as a
substring, `forward_message` issues no transport call at all for that
rule (no forward, copy or send, whatever the whitelist says): the
blacklist `continue` fires before any dispatch. -/
theorem c1_blacklist_blocks_dispatch (r : App.Rule) (m : App.Message)
    (raises : App.Call → Bool)
    (hbl : ∃ w ∈ r.WORD_BLACKLIST, pyIn w (pyLower (App.textOf m)) = true) :
    App.perRuleEffects r m raises = [] := by
  obtain ⟨w, hw, hin⟩ := hbl
  have hany : r.WORD_BLACKLIST.any
      (fun w => pyIn w (pyLower (App.textOf m))) = true :=
    List.any_eq_true.mpr ⟨w, hw, hin⟩
  have hne : r.WORD_BLACKLIST.isEmpty = false := by
    cases hbl : r.WORD_BLACKLIST <;> simp_all
  have hfilt : App.passesFilters r m = false := by
    simp [App.passesFilters, hany, hne]
  simp [App.perRuleEffects, App.ruleFire, hfilt]

/-- C1 witness: a rule blacklisting "spam" and whitelisting "sale" on a
message containing both. -/
theorem c1_witness :
    App.perRuleEffects c1Rule c1Msg (fun _ => false) = [] :=
  c1_blacklist_blocks_dispatch c1Rule c1Msg (fun _ => false) (by decide)

/-- C2: a rule with `IS_ACTIVE = false` produces no effect whatsoever
for any inbound message: it never enters `matching_rules`. -/
theorem c2_inactive_rule_never_dispatches (r : App.Rule) (m : App.Message)
    (raises : App.Call → Bool) (h : r.IS_ACTIVE = false) :
    App.perRuleEffects r m raises = [] := by
  simp [App.perRuleEffects, App.ruleSelected, h]

/-- C2 witness: an inactive rule whose source matches the message. -/
theorem c2_witness :
    App.perRuleEffects c2Rule c1Msg (fun _ => false) = [] :=
  c2_inactive_rule_never_dispatches c2Rule c1Msg (fun _ => false) (by decide)

/-- C3 counterexample: the header/footer composition of
`handle_incoming` has no idempotence guard.  With header `"H"` and no
footer, applying the composition twice to `"B"` yields `"H\nH\nB"`,
not the single application `"H\nB"`. -/
theorem c3_counterexample :
    Src2.composeHF "H" "" (Src2.composeHF "H" "" "B") ≠
      Src2.composeHF "H" "" "B" := by decide

/-- C3 amended: the composition is not idempotent; reapplying it with a
non-empty header prepends the header a second time
(`compose h (compose h b) = h ++ "\n" ++ compose h b`). -/
theorem c3_amended (h b : String) (hh : h ≠ "") (hb : b ≠ "") :
    Src2.composeHF h "" (Src2.composeHF h "" b) =
      h ++ "\n" ++ Src2.composeHF h "" b := by
  have hinner : Src2.composeHF h "" b = h ++ "\n" ++ b := by
    have hne : h ++ "\n" ++ b ≠ "" :=
      append_ne_empty_left _ _ (append_ne_empty_left _ _ hh)
    simp [Src2.composeHF, Src2.joinNL, hh, hb, hne]
  have hne2 : h ++ "\n" ++ b ≠ "" :=
    append_ne_empty_left _ _ (append_ne_empty_left _ _ hh)
  have hne3 : h ++ "\n" ++ (h ++ "\n" ++ b) ≠ "" :=
    append_ne_empty_left _ _ (append_ne_empty_left _ _ hh)
  rw [hinner]
  simp [Src2.composeHF, Src2.joinNL, hh, hne2, hne3]

/-- C3 amended witness: header `"H"`, body `"B"`. -/
theorem c3_amended_witness :
    Src2.composeHF "H" "" (Src2.composeHF "H" "" "B") =
      "H" ++ "\n" ++ Src2.composeHF "H" "" "B" :=
  c3_amended "H" "B" (by decide) (by decide)

/-- C5 counterexample: the inbound id string `"123"` is a substring of
the spec entry `"4123"`, yet the source matcher rejects: there is no
substring fallback in `forward_message`. -/
theorem c5_counterexample :
    pyIn (pyStr c5Msg.chatId) "4123" = true ∧
      App.sourceMatches c5Rule c5Msg = false := by decide

/-- C5 amended: the source matcher accepts exactly when some trimmed
comma-separated entry equals the inbound id string, or starts with `@`
and equals the inbound handle case-insensitively; substring overlap
alone never matches. -/
theorem c5_amended (r : App.Rule) (m : App.Message) :
    App.sourceMatches r m = true ↔
    ∃ s ∈ (pySplitComma r.SOURCE_CHAT_ID).map pyStrip,
      s = pyStr m.chatId ∨
      (pyStartsWith s "@" = true ∧ m.chatUsername ≠ "" ∧
        pyLower m.chatUsername = pyLower (pyLstripAt s)) := by
  simp [App.sourceMatches, App.entryMatch, List.any_eq_true,
    Bool.or_eq_true, Bool.and_eq_true, beq_iff_eq, bne_iff_ne, and_assoc]

/-- C6 counterexample: a rule with empty destination and a matching
message is skipped with no dispatch but also with no admin
notification: the missing destination is silently dropped, not
surfaced. -/
theorem c6_counterexample :
    App.perRuleEffects c6Rule c6Msg (fun _ => false) = [] ∧
      App.Effect.adminNotified 6 ∉
        App.perRuleEffects c6Rule c6Msg (fun _ => false) := by decide

/-- C6 amended: a rule whose destination is unset/empty never
dispatches — but it is skipped silently (no effect at all), without
surfacing the configuration error to the administrator. -/
theorem c6_amended (r : App.Rule) (m : App.Message)
    (raises : App.Call → Bool) (h : r.DESTINATION_CHAT_ID = "") :
    App.perRuleEffects r m raises = [] := by
  simp [App.perRuleEffects, App.ruleSelected, h]

/-- C6 amended witness: the destination-less rule above. -/
theorem c6_amended_witness :
    App.perRuleEffects c6Rule c6Msg (fun _ => false) = [] :=
  c6_amended c6Rule c6Msg (fun _ => false) (by decide)

def c4Rule : App.Rule :=
  { App.defaultRule 4 "c4" "-100111" "-100222" with
      FORWARDING_MODE := "FORWARD", REMOVE_BUTTONS := false }

def c4Msg : App.Message := { c1Msg with text := "hello" }

/-- C4: a rule in FORWARD mode with no replacements, empty prefix and
suffix, and every presentation flag clear plans exactly the verbatim
`bot.forward_message` call; on a selected, filter-passing message with
any content the effects are exactly that one forward call and no
reconstruction call. -/
theorem c4_forward_mode_is_verbatim (r : App.Rule) (m : App.Message)
    (raises : App.Call → Bool)
    (hmode : r.FORWARDING_MODE = "FORWARD")
    (hrep : r.TEXT_REPLACEMENTS = [])
    (hpre : r.PREFIX_TEXT = "") (hsuf : r.SUFFIX_TEXT = "")
    (hbtn : r.REMOVE_BUTTONS = false) (hcap : r.REMOVE_CAPTION = false)
    (hsil : r.SILENT_FORWARDING = false)
    (hprev : r.REMOVE_WEB_PREVIEW = false)
    (hcontent : App.hasAnyMedia m = true ∨ App.textOf m ≠ "")
    (hsel : App.ruleSelected r m = true)
    (hfilt : App.passesFilters r m = true)
    (hok : raises (App.Call.forward r.DESTINATION_CHAT_ID m.chatId
      m.messageId false) = false) :
    App.plannedCall r m =
      some (App.Call.forward r.DESTINATION_CHAT_ID m.chatId m.messageId
        false) ∧
    App.perRuleEffects r m raises =
      [App.Effect.callIssued r.id
        (App.Call.forward r.DESTINATION_CHAT_ID m.chatId m.messageId false)
        true] := by
  have htp : App.textProcess r (App.textOf m) = (App.textOf m, false) := by
    simp [App.textProcess, hrep, hpre, hsuf]
  have hplan : App.plannedCall r m =
      some (App.Call.forward r.DESTINATION_CHAT_ID m.chatId m.messageId
        false) := by
    rcases hcontent with hm | ht
    · simp [App.plannedCall, htp, App.forceCopyOf, hmode, hbtn, hcap,
        hprev, hsil, hm]
    · by_cases h1 : m.text = ""
      · have h2 : m.caption ≠ "" := by
          intro h2
          exact ht (by simp [App.textOf, pyOr, h1, h2])
        simp [App.plannedCall, htp, App.forceCopyOf, hmode, hbtn, hcap,
          hprev, hsil, h2]
      · simp [App.plannedCall, htp, App.forceCopyOf, hmode, hbtn, hcap,
          hprev, hsil, h1]
  refine ⟨hplan, ?_⟩
  simp [App.perRuleEffects, App.ruleFire, hsel, hfilt, hplan, hok]

/-- C4 witness: a FORWARD rule with all flags clear and a plain text
message. -/
theorem c4_witness :
    App.plannedCall c4Rule c4Msg =
      some (App.Call.forward "-100222" (-100111) 7 false) ∧
    App.perRuleEffects c4Rule c4Msg (fun _ => false) =
      [App.Effect.callIssued 4
        (App.Call.forward "-100222" (-100111) 7 false) true] :=
  c4_forward_mode_is_verbatim c4Rule c4Msg (fun _ => false) rfl rfl rfl rfl
    rfl rfl rfl rfl (by decide) (by decide) (by decide) rfl

def c7Rule : App.Rule :=
  { App.defaultRule 7 "c7" "-100111" "-100222" with REMOVE_BUTTONS := false }

def c7RuleB : App.Rule :=
  { App.defaultRule 8 "c7b" "-100111" "-100333" with REMOVE_BUTTONS := false }

/-- C7: a transport exception while dispatching for one rule is caught
inside that rule's `try`: the engine emits the failed call and the
admin notification for that rule, and the effects of all remaining
rules are exactly those of processing them alone — the failure is
terminal for this rule-message pair only. -/
theorem c7_failure_does_not_abort_remaining_rules (m : App.Message)
    (r : App.Rule) (rest : List App.Rule) (raises : App.Call → Bool)
    (c : App.Call)
    (hsel : App.ruleSelected r m = true)
    (hfilt : App.passesFilters r m = true)
    (hplan : App.plannedCall r m = some c)
    (hfail : raises c = true) :
    App.processMessage (r :: rest) m raises =
      App.Effect.callIssued r.id c false :: App.Effect.adminNotified r.id ::
        App.processMessage rest m raises := by
  rw [processMessage_cons]
  simp [App.perRuleEffects, App.ruleFire, hsel, hfilt, hplan, hfail,
    App.is_admin, App.FORCE_ADMIN_ID]

/-- C7 witness: two rules matching the same message, the transport
failing on every call: the second rule still dispatches. -/
theorem c7_witness :
    App.processMessage [c7Rule, c7RuleB] c4Msg (fun _ => true) =
      App.Effect.callIssued 7
          (App.Call.sendText "-100222" "hello" false false) false ::
        App.Effect.adminNotified 7 ::
        App.processMessage [c7RuleB] c4Msg (fun _ => true) :=
  c7_failure_does_not_abort_remaining_rules c4Msg c7Rule [c7RuleB]
    (fun _ => true) (App.Call.sendText "-100222" "hello" false false)
    (by decide) (by decide) (by decide) rfl

/-- Any rule with `REMOVE_BUTTONS = true` forces the copy path: the
planned call is never the verbatim forward. -/
theorem remove_buttons_forces_copy (r : App.Rule) (m : App.Message)
    (c : App.Call) (hbtn : r.REMOVE_BUTTONS = true)
    (h : App.plannedCall r m = some c) :
    App.Call.isForward c = false := by
  simp only [App.plannedCall, App.forceCopyOf, hbtn, Bool.or_true,
    Bool.true_or] at h
  repeat' split at h
  all_goals
    first
    | exact Option.noConfusion h
    | (injection h with h2; subst h2; rfl)
    | simp_all

/-- C8: a freshly created rule keeps the model defaults
`REMOVE_BUTTONS = True` and `BLOCK_SERVICE_MESSAGES = True`; hence,
whatever `FORWARDING_MODE` is set to (including FORWARD) and however
the message looks, any call it plans is a reconstruction
(send/copy), never the verbatim forward. -/
theorem c8_default_rule_never_forwards (i : Nat)
    (name source dest mode : String) (m : App.Message) (c : App.Call)
    (h : App.plannedCall
      { App.defaultRule i name source dest with FORWARDING_MODE := mode }
      m = some c) :
    (App.defaultRule i name source dest).REMOVE_BUTTONS = true ∧
    (App.defaultRule i name source dest).BLOCK_SERVICE_MESSAGES = true ∧
    App.Call.isForward c = false :=
  ⟨rfl, rfl, remove_buttons_forces_copy _ m c rfl h⟩

/-- C8 witness: the default rule switched to FORWARD mode on a plain
text message still plans a send, not a forward. -/
theorem c8_witness :
    (App.defaultRule 3 "c8" "-100111" "-100222").REMOVE_BUTTONS = true ∧
    (App.defaultRule 3 "c8" "-100111" "-100222").BLOCK_SERVICE_MESSAGES
      = true ∧
    App.Call.isForward (App.Call.sendText "-100222" "hello" false false)
      = false :=
  c8_default_rule_never_forwards 3 "c8" "-100111" "-100222" "FORWARD"
    c4Msg (App.Call.sendText "-100222" "hello" false false) (by decide)

def c9Rule : App.Rule :=
  { App.defaultRule 9 "c9" "-1" "-2" with
      FORWARDING_MODE := "FORWARD", REMOVE_BUTTONS := false }

def c9Msg : App.Message :=
  { c1Msg with chatId := -1, messageId := 5, text := " " }

def c9RuleCopy : App.Rule := { c9Rule with FORWARDING_MODE := "COPY" }

/-- C9 counterexample: a pure-text message whose body `" "` is
whitespace-only (and unmodified) under a FORWARD rule with no
replacements, prefix, suffix or flags is NOT dropped: the engine
issues the verbatim forward call for it. -/
theorem c9_counterexample :
    pyStrip (App.textProcess c9Rule (App.textOf c9Msg)).1 = "" ∧
    App.perRuleEffects c9Rule c9Msg (fun _ => false) =
      [App.Effect.callIssued 9 (App.Call.forward "-2" (-1) 5 false)
        true] := by decide

/-- C9 amended: for a pure-text message whose final body is empty or
whitespace-only, whenever the dispatch decision takes the copy path
(`force_copy`, e.g. COPY mode, any text modification, or a
remove-buttons/caption/preview flag), the engine issues no call at
all for that rule — dropped silently, no error, no notification.  (In
FORWARD mode with an unmodified whitespace-only body a verbatim
forward is still issued, per the counterexample.) -/
theorem c9_amended (r : App.Rule) (m : App.Message)
    (raises : App.Call → Bool)
    (htext : m.text ≠ "") (hcap : m.caption = "")
    (hmedia : App.hasAnyMedia m = false)
    (hempty : pyStrip (App.textProcess r (App.textOf m)).1 = "")
    (hforce : App.forceCopyOf r (App.textProcess r (App.textOf m)).2
      = true) :
    App.perRuleEffects r m raises = [] := by
  simp [App.hasAnyMedia] at hmedia
  have hplan : App.plannedCall r m = none := by
    simp [App.plannedCall, App.hasAnyMedia, App.hasCaptionMedia,
      App.captionTruthy, hempty, hforce, htext, hcap, hmedia]
  simp [App.perRuleEffects, App.ruleFire, hplan]

/-- C9 amended witness: the same whitespace-body message under the COPY
variant of the rule is silently dropped. -/
theorem c9_amended_witness :
    App.perRuleEffects c9RuleCopy c9Msg (fun _ => false) = [] :=
  c9_amended c9RuleCopy c9Msg (fun _ => false) (by decide) rfl (by decide)
    (by decide) (by decide)

def c10State : Src2.SState where
  enabled := true
  source := "-100"
  target := "-200"
  replacements := []
  blocked := []
  header := ""
  footer := ""
  dupCheck := true
  forwardedCache := []

def c10Msg : Src2.SMsg where
  chatId := -100
  chatUsername := ""
  messageId := 5
  text := "hello"
  caption := ""
  hasPhoto := false
  hasVideo := false
  hasDocument := false
  hasAudio := false
  forwardFrom := none

/-- C10: the dedup cache is written only after a successful send.  If
the dispatch raises, the state (in particular the cache, all of whose
entries are within the TTL, so the cleanup inside the duplicate check
removes nothing) is unchanged, and redelivering the same message
within the TTL attempts the very same dispatch again instead of being
skipped as a duplicate. -/
theorem c10_failed_dispatch_leaves_cache (st : Src2.SState)
    (m : Src2.SMsg) (now now2 : Nat) (c : Src2.SCall)
    (hlive : ∀ p ∈ st.forwardedCache, now - p.2 ≤ 3600)
    (hlive2 : ∀ p ∈ st.forwardedCache, now2 - p.2 ≤ 3600)
    (hfail : (Src2.handle_incoming st m now true).2 =
      Src2.Outcome.failed c) :
    (Src2.handle_incoming st m now true).1 = st ∧
    (Src2.handle_incoming st m now2 false).2 = Src2.Outcome.sent c := by
  obtain ⟨en, src, tgt, reps, blk, hd, ft, dup, cache⟩ := st
  have hclean : Src2.cacheCleanup cache now 3600 = cache :=
    List.filter_eq_self.mpr (fun p hp => by simpa using hlive p hp)
  have hclean2 : Src2.cacheCleanup cache now2 3600 = cache :=
    List.filter_eq_self.mpr (fun p hp => by simpa using hlive2 p hp)
  cases en with
  | false => simp [Src2.handle_incoming] at hfail
  | true =>
  by_cases hcfg : (src == "" || tgt == "") = true
  · simp [Src2.handle_incoming, hcfg] at hfail
  · by_cases hsm :
      Src2.srcMatch ⟨true, src, tgt, reps, blk, hd, ft, dup, cache⟩ m
        = true
    · by_cases hdup : (dup && Src2.cacheHas cache
        (pyStr m.chatId ++ ":" ++ pyStrNat m.messageId)) = true
      · simp [Src2.handle_incoming, hcfg, hsm, hclean, hdup] at hfail
      · by_cases hblk : Src2.isBlockedMessage blk
          (pyOr m.text m.caption) = true
        · simp [Src2.handle_incoming, hcfg, hsm, hclean, hdup, hblk]
            at hfail
        · simp [Src2.handle_incoming, hcfg, hsm, hclean, hclean2,
            hdup, hblk] at hfail ⊢
          exact hfail
    · simp [Src2.handle_incoming, hcfg, hsm] at hfail

/-- C10 witness: failing transport on an empty cache leaves the state
untouched and the redelivery at a later time goes through. -/
theorem c10_witness :
    (Src2.handle_incoming c10State c10Msg 1000 true).1 = c10State ∧
    (Src2.handle_incoming c10State c10Msg 2000 false).2 =
      Src2.Outcome.sent (Src2.SCall.sendText "-200" "hello") :=
  c10_failed_dispatch_leaves_cache c10State c10Msg 1000 2000
    (Src2.SCall.sendText "-200" "hello") (by decide) (by decide)
    (by decide)

end TgForward

